import Mathlib

/-!
Shallow embedding of the ArticleGenerator service (src/api.py, src/generation.py,
src/utils.py).

The LLM client together with the JSON output parser is modelled as an opaque
oracle `LLMOracle` mapping a rendered prompt (template name plus the variable
bindings passed to `invoke`) to either a parse/transport failure or a parsed
JSON value.  The GoogleTranslator is modelled as an opaque oracle `TransOracle`
taking (source locale, target locale, text) and returning either a failure or
the translated text.  External calls are recorded in an explicit trace so that
call-count properties can be stated.  The langgraph `StateGraph` is modelled by
`Workflow` with `add_node` / `set_entry_point` / `add_edge` and a fueled
executor `execFrom` that follows the (first matching) outgoing edge of each
node, merging each node's returned field dictionary into the running state.
-/

/-- Parsed JSON values, the output of the JSON response parser. -/
inductive Json where
  | str : String → Json
  | num : Int → Json
  | bool : Bool → Json
  | null : Json
  | arr : List Json → Json
  | obj : List (String × Json) → Json

/-- Dictionary lookup `response[k]` on a parsed LLM response: a `.obj` yields
the value of the first binding of `k` (if any); indexing anything else by a
string key fails, like the corresponding Python `TypeError`/`KeyError`. -/
def Json.getKey : Json → String → Option Json
  | .obj kvs, k => (kvs.find? (fun p => p.1 == k)).map (fun p => p.2)
  | _, _ => none

/-- The langgraph `GraphState` TypedDict of src/generation.py: ten fields,
each possibly absent (populated progressively during the run). -/
structure GraphState where
  instruction : Option Json
  title_en : Option Json
  seo_en : Option Json
  summary_en : Option Json
  body_en : Option Json
  title_id : Option Json
  seo_id : Option Json
  summary_id : Option Json
  body_id : Option Json
  tags : Option Json

def emptyState : GraphState :=
  ⟨none, none, none, none, none, none, none, none, none, none⟩

/-- Failures raised inside the pipeline (all are plain Python exceptions in the
source; the constructors only distinguish their origin). -/
inductive PipeError where
  | missingKey : String → PipeError
  | llmFailure : PipeError
  | translateFailure : PipeError
  | recursionLimit : PipeError
  | unknownNode : String → PipeError

/-- One rendered LLM prompt: the template (identified by the stage that owns
it) plus the variable bindings passed to `invoke`. -/
structure LLMCall where
  template : String
  vars : List (String × Json)

/-- One external call made during a run. -/
inductive ExtCall where
  | llm : LLMCall → ExtCall
  | translate : String → String → Json → ExtCall

/-- Opaque LLM client composed with the JSON output parser: may fail
(malformed JSON, transport error) or return a parsed JSON value. -/
abbrev LLMOracle : Type := LLMCall → Except PipeError Json

/-- Opaque GoogleTranslator: (source, target, text) to translated text. -/
abbrev TransOracle : Type := String → String → Json → Except PipeError String

/-- The dictionary of new fields a stage returns. -/
abbrev Upd : Type := List (String × Json)

/-- Result of running one stage: the stage's outcome together with the
external-call trace extended by the calls the stage made. -/
abbrev StageResult : Type := Except PipeError Upd × List ExtCall

/-- langgraph merges a node's returned dictionary into the state key by key;
keys other than the ten `GraphState` fields do not occur in this program. -/
def setField (s : GraphState) (k : String) (v : Json) : GraphState :=
  if k == "instruction" then { s with instruction := some v }
  else if k == "title_en" then { s with title_en := some v }
  else if k == "seo_en" then { s with seo_en := some v }
  else if k == "summary_en" then { s with summary_en := some v }
  else if k == "body_en" then { s with body_en := some v }
  else if k == "title_id" then { s with title_id := some v }
  else if k == "seo_id" then { s with seo_id := some v }
  else if k == "summary_id" then { s with summary_id := some v }
  else if k == "body_id" then { s with body_id := some v }
  else if k == "tags" then { s with tags := some v }
  else s

def merge (s : GraphState) (upd : Upd) : GraphState :=
  upd.foldl (fun acc kv => setField acc kv.1 kv.2) s

/-- `ArticleGenerator.title_generator`: reads `state["instruction"]`, calls the
LLM, reads `response['title_en']`, copies it into `seo_en`, and returns the
dictionary with keys `title_en` and `seo_en`. -/
def title_generator (llm : LLMOracle) (state : GraphState) (calls : List ExtCall) :
    StageResult :=
  match state.instruction with
  | none => (.error (.missingKey "instruction"), calls)
  | some instr =>
    let call : LLMCall := ⟨"title_generator", [("instruction", instr)]⟩
    let calls := calls ++ [.llm call]
    match llm call with
    | .error e => (.error e, calls)
    | .ok response =>
      match response.getKey "title_en" with
      | none => (.error (.missingKey "title_en"), calls)
      | some t =>
        let seo_en := t
        (.ok [("title_en", t), ("seo_en", seo_en)], calls)

/-- `ArticleGenerator.summary_generator`: reads `state["title_en"]`, calls the
LLM, returns the dictionary with the single key `summary_en`. -/
def summary_generator (llm : LLMOracle) (state : GraphState) (calls : List ExtCall) :
    StageResult :=
  match state.title_en with
  | none => (.error (.missingKey "title_en"), calls)
  | some title_en =>
    let call : LLMCall := ⟨"summary_generator", [("title_en", title_en)]⟩
    let calls := calls ++ [.llm call]
    match llm call with
    | .error e => (.error e, calls)
    | .ok response =>
      match response.getKey "summary_en" with
      | none => (.error (.missingKey "summary_en"), calls)
      | some v => (.ok [("summary_en", v)], calls)

/-- `ArticleGenerator.body_generator`: reads `state["title_en"]` and
`state["summary_en"]`, calls the LLM, returns the dictionary with the single
key `body_en`. -/
def body_generator (llm : LLMOracle) (state : GraphState) (calls : List ExtCall) :
    StageResult :=
  match state.title_en with
  | none => (.error (.missingKey "title_en"), calls)
  | some title_en =>
    match state.summary_en with
    | none => (.error (.missingKey "summary_en"), calls)
    | some summary_en =>
      let call : LLMCall := ⟨"body_generator", [("title_en", title_en), ("summary_en", summary_en)]⟩
      let calls := calls ++ [.llm call]
      match llm call with
      | .error e => (.error e, calls)
      | .ok response =>
        match response.getKey "body_en" with
        | none => (.error (.missingKey "body_en"), calls)
        | some v => (.ok [("body_en", v)], calls)

/-- `ArticleGenerator.translator`: reads `title_en`, `summary_en`, `body_en`;
makes three GoogleTranslator calls with source locale "en" and target locale
"id"; sets `seo_id` to a copy of `title_id`; returns the dictionary with keys
`title_id`, `seo_id`, `summary_id`, `body_id`. -/
def translator (trO : TransOracle) (state : GraphState) (calls : List ExtCall) :
    StageResult :=
  match state.title_en with
  | none => (.error (.missingKey "title_en"), calls)
  | some title_en =>
    match state.summary_en with
    | none => (.error (.missingKey "summary_en"), calls)
    | some summary_en =>
      match state.body_en with
      | none => (.error (.missingKey "body_en"), calls)
      | some body_en =>
        let calls := calls ++ [.translate "en" "id" title_en]
        match trO "en" "id" title_en with
        | .error e => (.error e, calls)
        | .ok title_id =>
          let seo_id := title_id
          let calls := calls ++ [.translate "en" "id" summary_en]
          match trO "en" "id" summary_en with
          | .error e => (.error e, calls)
          | .ok summary_id =>
            let calls := calls ++ [.translate "en" "id" body_en]
            match trO "en" "id" body_en with
            | .error e => (.error e, calls)
            | .ok body_id =>
              (.ok [("title_id", .str title_id), ("seo_id", .str seo_id),
                    ("summary_id", .str summary_id), ("body_id", .str body_id)], calls)

/-- `ArticleGenerator.tags_generator`: reads `state["title_id"]` and
`state["summary_id"]`, calls the LLM, returns the dictionary with the single
key `tags`, whose value is `response['tags']` unchanged. -/
def tags_generator (llm : LLMOracle) (state : GraphState) (calls : List ExtCall) :
    StageResult :=
  match state.title_id with
  | none => (.error (.missingKey "title_id"), calls)
  | some title_id =>
    match state.summary_id with
    | none => (.error (.missingKey "summary_id"), calls)
    | some summary_id =>
      let call : LLMCall := ⟨"tags_generator", [("title_id", title_id), ("summary_id", summary_id)]⟩
      let calls := calls ++ [.llm call]
      match llm call with
      | .error e => (.error e, calls)
      | .ok response =>
        match response.getKey "tags" with
        | none => (.error (.missingKey "tags"), calls)
        | some v => (.ok [("tags", v)], calls)

/-- The langgraph `StateGraph`: named nodes, an entry point, directed edges. -/
structure Workflow where
  nodes : List (String × (GraphState → List ExtCall → StageResult))
  entry : Option String
  edges : List (String × String)

def Workflow.add_node (wf : Workflow) (name : String)
    (f : GraphState → List ExtCall → StageResult) : Workflow :=
  { wf with nodes := wf.nodes ++ [(name, f)] }

def Workflow.set_entry_point (wf : Workflow) (name : String) : Workflow :=
  { wf with entry := some name }

def Workflow.add_edge (wf : Workflow) (src : String) (dst : String) : Workflow :=
  { wf with edges := wf.edges ++ [(src, dst)] }

def emptyWorkflow : Workflow := ⟨[], none, []⟩

/-- `ArticleGenerator._set_up_workflow`: five nodes, entry `title_generator`,
four edges forming a straight chain. -/
def _set_up_workflow (llm : LLMOracle) (trO : TransOracle) : Workflow :=
  let wf := emptyWorkflow
  let wf := wf.add_node "title_generator" (title_generator llm)
  let wf := wf.add_node "summary_generator" (summary_generator llm)
  let wf := wf.add_node "body_generator" (body_generator llm)
  let wf := wf.add_node "translator" (translator trO)
  let wf := wf.add_node "tags_generator" (tags_generator llm)
  let wf := wf.set_entry_point "title_generator"
  let wf := wf.add_edge "title_generator" "summary_generator"
  let wf := wf.add_edge "summary_generator" "body_generator"
  let wf := wf.add_edge "body_generator" "translator"
  let wf := wf.add_edge "translator" "tags_generator"
  wf

/-- langgraph's default recursion limit. -/
def recursion_limit : Nat := 25

/-- Result of one graph execution: outcome, external-call trace, and the list
of node invocations (node name paired with the state it was invoked on). -/
abbrev RunResult : Type :=
  Except PipeError GraphState × List ExtCall × List (String × GraphState)

/-- The compiled-graph executor: run the current node on the running state,
merge its returned dictionary, then follow the node's (unique) outgoing edge;
a node with no outgoing edge finishes the run.  Each node invocation is
recorded together with the state it received. -/
def execFrom (wf : Workflow) : Nat → String → GraphState → List ExtCall →
    List (String × GraphState) → RunResult
  | 0, _, _, calls, invs => (.error .recursionLimit, calls, invs)
  | fuel + 1, node, s, calls, invs =>
    match wf.nodes.find? (fun p => p.1 == node) with
    | none => (.error (.unknownNode node), calls, invs)
    | some nf =>
      let invs := invs ++ [(node, s)]
      match nf.2 s calls with
      | (.error e, calls) => (.error e, calls, invs)
      | (.ok upd, calls) =>
        let s := merge s upd
        match wf.edges.find? (fun p => p.1 == node) with
        | none => (.ok s, calls, invs)
        | some edge => execFrom wf fuel edge.2 s calls invs

/-- The initial state of `app.invoke({"instruction": instruction})`. -/
def initState (instruction : String) : GraphState :=
  merge emptyState [("instruction", .str instruction)]

/-- `ArticleGenerator.generate_article`: compile the workflow and invoke it on
the instruction. -/
def generate_article (llm : LLMOracle) (trO : TransOracle) (instruction : String) :
    RunResult :=
  let wf := _set_up_workflow llm trO
  match wf.entry with
  | none => (.error (.unknownNode "__entry__"), [], [])
  | some entry => execFrom wf recursion_limit entry (initState instruction) [] []

/-- FastAPI's `HTTPException`, reduced to the fields this program uses. -/
structure HTTPException where
  status_code : Nat
  detail : String

/-- The endpoint's input value: either a Python string or a non-string Python
value, of which only the truthiness is observable to `validate_string`. -/
inductive Input where
  | str : String → Input
  | nonString : Bool → Input

/-- Python truthiness of the input: an empty string is falsy; a non-string
value carries its own truthiness. -/
def pyFalsy : Input → Bool
  | .str s => s == ""
  | .nonString truthy => !truthy

/-- `not s.strip()` on a Python string: true iff every character is
whitespace (so also for the empty string). -/
def pyStrWhitespaceOnly (s : String) : Bool :=
  s.data.all (fun c => c.isWhitespace)

/-- `isinstance(input_str, str)`. -/
def Input.isStr : Input → Bool
  | .str _ => true
  | .nonString _ => false

/-- `not input_str.strip()`: true iff the string is all whitespace.  Only ever
evaluated on values that passed the `isinstance` check, hence on strings. -/
def stripEmpty : Input → Bool
  | .str s => pyStrWhitespaceOnly s
  | .nonString _ => false

/-- `utils.validate_string`: the three successive checks of src/utils.py, each
raising `HTTPException(400, ...)`. -/
def validate_string (input_str : Input) : Except HTTPException Unit :=
  if pyFalsy input_str then .error ⟨400, "Input must be a string"⟩
  else if !input_str.isStr then .error ⟨400, "Input must be a string"⟩
  else if stripEmpty input_str then .error ⟨400, "Input cannot be empty or just whitespace"⟩
  else .ok ()

/-- The observable outcome of one request: the response (final state or
HTTP error), the external calls made, and how many times the pipeline
(`generate_article`) was invoked. -/
structure HandlerResult where
  response : Except HTTPException GraphState
  calls : List ExtCall
  pipeline_runs : Nat

/-- `api.classify_texts`: validate (outside the try-block, so validation
errors surface as-is), then invoke the pipeline once inside a try-block that
converts any exception into `HTTPException(500, "Internal server error")`.
The `.nonString` arm after successful validation is unreachable, since
`validate_string` rejects every non-string. -/
def classify_texts (llm : LLMOracle) (trO : TransOracle) (input_text : Input) :
    HandlerResult :=
  match validate_string input_text with
  | .error e => ⟨.error e, [], 0⟩
  | .ok _ =>
    match input_text with
    | .str s =>
      match generate_article llm trO s with
      | (.ok article, calls, _) => ⟨.ok article, calls, 1⟩
      | (.error _, calls, _) => ⟨.error ⟨500, "Internal server error"⟩, calls, 1⟩
    | .nonString _ => ⟨.error ⟨500, "Internal server error"⟩, [], 0⟩

/-- The straight sequential composition of the five stage functions in
source order, merging each stage's returned dictionary into the running
state between stages, with the same invocation bookkeeping as the executor. -/
def runSeqTrace (llm : LLMOracle) (trO : TransOracle) (instruction : String) : RunResult :=
  let s0 := initState instruction
  match title_generator llm s0 [] with
  | (.error e, calls) => (.error e, calls, [("title_generator", s0)])
  | (.ok upd1, calls) =>
    let s1 := merge s0 upd1
    match summary_generator llm s1 calls with
    | (.error e, calls) => (.error e, calls,
        [("title_generator", s0), ("summary_generator", s1)])
    | (.ok upd2, calls) =>
      let s2 := merge s1 upd2
      match body_generator llm s2 calls with
      | (.error e, calls) => (.error e, calls,
          [("title_generator", s0), ("summary_generator", s1), ("body_generator", s2)])
      | (.ok upd3, calls) =>
        let s3 := merge s2 upd3
        match translator trO s3 calls with
        | (.error e, calls) => (.error e, calls,
            [("title_generator", s0), ("summary_generator", s1), ("body_generator", s2),
             ("translator", s3)])
        | (.ok upd4, calls) =>
          let s4 := merge s3 upd4
          match tags_generator llm s4 calls with
          | (.error e, calls) => (.error e, calls,
              [("title_generator", s0), ("summary_generator", s1), ("body_generator", s2),
               ("translator", s3), ("tags_generator", s4)])
          | (.ok upd5, calls) =>
            (.ok (merge s4 upd5), calls,
              [("title_generator", s0), ("summary_generator", s1), ("body_generator", s2),
               ("translator", s3), ("tags_generator", s4)])

/-- The compiled graph execution coincides with the straight sequential
composition of the five stages. -/
theorem generate_article_eq_seq (llm : LLMOracle) (trO : TransOracle) (instruction : String) :
    generate_article llm trO instruction = runSeqTrace llm trO instruction := rfl

theorem title_generator_ok {llm : LLMOracle} {s : GraphState} {calls calls' : List ExtCall}
    {upd : Upd} (h : title_generator llm s calls = (.ok upd, calls')) :
    ∃ instr t, s.instruction = some instr ∧
      upd = [("title_en", t), ("seo_en", t)] ∧
      calls' = calls ++ [.llm ⟨"title_generator", [("instruction", instr)]⟩] := by
  unfold title_generator at h
  cases hi : s.instruction with
  | none => rw [hi] at h; simp at h
  | some instr =>
    rw [hi] at h
    simp only [] at h
    cases hl : llm ⟨"title_generator", [("instruction", instr)]⟩ with
    | error e => rw [hl] at h; simp at h
    | ok response =>
      rw [hl] at h
      simp only [] at h
      cases hk : response.getKey "title_en" with
      | none => rw [hk] at h; simp at h
      | some t =>
        rw [hk] at h
        simp only [Prod.mk.injEq, Except.ok.injEq] at h
        exact ⟨instr, t, rfl, h.1.symm, h.2.symm⟩

theorem summary_generator_ok {llm : LLMOracle} {s : GraphState} {calls calls' : List ExtCall}
    {upd : Upd} (h : summary_generator llm s calls = (.ok upd, calls')) :
    ∃ title_en v, s.title_en = some title_en ∧
      upd = [("summary_en", v)] ∧
      calls' = calls ++ [.llm ⟨"summary_generator", [("title_en", title_en)]⟩] := by
  unfold summary_generator at h
  cases hi : s.title_en with
  | none => rw [hi] at h; simp at h
  | some title_en =>
    rw [hi] at h
    simp only [] at h
    cases hl : llm ⟨"summary_generator", [("title_en", title_en)]⟩ with
    | error e => rw [hl] at h; simp at h
    | ok response =>
      rw [hl] at h
      simp only [] at h
      cases hk : response.getKey "summary_en" with
      | none => rw [hk] at h; simp at h
      | some v =>
        rw [hk] at h
        simp only [Prod.mk.injEq, Except.ok.injEq] at h
        exact ⟨title_en, v, rfl, h.1.symm, h.2.symm⟩

theorem body_generator_ok {llm : LLMOracle} {s : GraphState} {calls calls' : List ExtCall}
    {upd : Upd} (h : body_generator llm s calls = (.ok upd, calls')) :
    ∃ title_en summary_en v, s.title_en = some title_en ∧ s.summary_en = some summary_en ∧
      upd = [("body_en", v)] ∧
      calls' = calls ++ [.llm ⟨"body_generator", [("title_en", title_en), ("summary_en", summary_en)]⟩] := by
  unfold body_generator at h
  cases hi : s.title_en with
  | none => rw [hi] at h; simp at h
  | some title_en =>
    rw [hi] at h
    simp only [] at h
    cases hj : s.summary_en with
    | none => rw [hj] at h; simp at h
    | some summary_en =>
      rw [hj] at h
      simp only [] at h
      cases hl : llm ⟨"body_generator", [("title_en", title_en), ("summary_en", summary_en)]⟩ with
      | error e => rw [hl] at h; simp at h
      | ok response =>
        rw [hl] at h
        simp only [] at h
        cases hk : response.getKey "body_en" with
        | none => rw [hk] at h; simp at h
        | some v =>
          rw [hk] at h
          simp only [Prod.mk.injEq, Except.ok.injEq] at h
          exact ⟨title_en, summary_en, v, rfl, rfl, h.1.symm, h.2.symm⟩

theorem translator_ok {trO : TransOracle} {s : GraphState} {calls calls' : List ExtCall}
    {upd : Upd} (h : translator trO s calls = (.ok upd, calls')) :
    ∃ title_en summary_en body_en title_id summary_id body_id,
      s.title_en = some title_en ∧ s.summary_en = some summary_en ∧ s.body_en = some body_en ∧
      trO "en" "id" title_en = .ok title_id ∧
      trO "en" "id" summary_en = .ok summary_id ∧
      trO "en" "id" body_en = .ok body_id ∧
      upd = [("title_id", .str title_id), ("seo_id", .str title_id),
             ("summary_id", .str summary_id), ("body_id", .str body_id)] ∧
      calls' = calls ++ [.translate "en" "id" title_en, .translate "en" "id" summary_en,
                         .translate "en" "id" body_en] := by
  unfold translator at h
  cases h1 : s.title_en with
  | none => rw [h1] at h; simp at h
  | some title_en =>
    rw [h1] at h
    simp only [] at h
    cases h2 : s.summary_en with
    | none => rw [h2] at h; simp at h
    | some summary_en =>
      rw [h2] at h
      simp only [] at h
      cases h3 : s.body_en with
      | none => rw [h3] at h; simp at h
      | some body_en =>
        rw [h3] at h
        simp only [] at h
        cases h4 : trO "en" "id" title_en with
        | error e => rw [h4] at h; simp at h
        | ok title_id =>
          rw [h4] at h
          simp only [] at h
          cases h5 : trO "en" "id" summary_en with
          | error e => rw [h5] at h; simp at h
          | ok summary_id =>
            rw [h5] at h
            simp only [] at h
            cases h6 : trO "en" "id" body_en with
            | error e => rw [h6] at h; simp at h
            | ok body_id =>
              rw [h6] at h
              simp only [Prod.mk.injEq, Except.ok.injEq, List.append_assoc] at h
              refine ⟨title_en, summary_en, body_en, title_id, summary_id, body_id,
                rfl, rfl, rfl, h4, h5, h6, h.1.symm, ?_⟩
              rw [← h.2]
              simp

theorem tags_generator_ok {llm : LLMOracle} {s : GraphState} {calls calls' : List ExtCall}
    {upd : Upd} (h : tags_generator llm s calls = (.ok upd, calls')) :
    ∃ title_id summary_id v, s.title_id = some title_id ∧ s.summary_id = some summary_id ∧
      upd = [("tags", v)] ∧
      calls' = calls ++ [.llm ⟨"tags_generator", [("title_id", title_id), ("summary_id", summary_id)]⟩] := by
  unfold tags_generator at h
  cases hi : s.title_id with
  | none => rw [hi] at h; simp at h
  | some title_id =>
    rw [hi] at h
    simp only [] at h
    cases hj : s.summary_id with
    | none => rw [hj] at h; simp at h
    | some summary_id =>
      rw [hj] at h
      simp only [] at h
      cases hl : llm ⟨"tags_generator", [("title_id", title_id), ("summary_id", summary_id)]⟩ with
      | error e => rw [hl] at h; simp at h
      | ok response =>
        rw [hl] at h
        simp only [] at h
        cases hk : response.getKey "tags" with
        | none => rw [hk] at h; simp at h
        | some v =>
          rw [hk] at h
          simp only [Prod.mk.injEq, Except.ok.injEq] at h
          exact ⟨title_id, summary_id, v, rfl, rfl, h.1.symm, h.2.symm⟩

/-- Full characterization of a successful pipeline run: the values of all ten
fields of the final state, the exact external-call trace, and the exact node
invocations with the states they received. -/
theorem run_ok_shape {llm : LLMOracle} {trO : TransOracle} {instr : String}
    {st : GraphState} {calls : List ExtCall} {invs : List (String × GraphState)}
    (h : generate_article llm trO instr = (.ok st, calls, invs)) :
    ∃ t sm b tid smid bid tg,
      trO "en" "id" t = .ok tid ∧ trO "en" "id" sm = .ok smid ∧ trO "en" "id" b = .ok bid ∧
      st = ⟨some (.str instr), some t, some t, some sm, some b, some (.str tid),
            some (.str tid), some (.str smid), some (.str bid), some tg⟩ ∧
      calls = [.llm ⟨"title_generator", [("instruction", .str instr)]⟩,
               .llm ⟨"summary_generator", [("title_en", t)]⟩,
               .llm ⟨"body_generator", [("title_en", t), ("summary_en", sm)]⟩,
               .translate "en" "id" t, .translate "en" "id" sm, .translate "en" "id" b,
               .llm ⟨"tags_generator", [("title_id", .str tid), ("summary_id", .str smid)]⟩] ∧
      invs = [("title_generator",
                ⟨some (.str instr), none, none, none, none, none, none, none, none, none⟩),
              ("summary_generator",
                ⟨some (.str instr), some t, some t, none, none, none, none, none, none, none⟩),
              ("body_generator",
                ⟨some (.str instr), some t, some t, some sm, none, none, none, none, none, none⟩),
              ("translator",
                ⟨some (.str instr), some t, some t, some sm, some b, none, none, none, none, none⟩),
              ("tags_generator",
                ⟨some (.str instr), some t, some t, some sm, some b, some (.str tid),
                 some (.str tid), some (.str smid), some (.str bid), none⟩)] := by
  rw [generate_article_eq_seq] at h
  simp only [runSeqTrace] at h
  rcases e1 : title_generator llm (initState instr) [] with ⟨res1, calls1⟩
  rw [e1] at h
  cases res1 with
  | error e => simp at h
  | ok upd1 =>
    simp only [] at h
    obtain ⟨i0, t, hi0, hupd1, hc1⟩ := title_generator_ok e1
    have hi0' : some (Json.str instr) = some i0 := hi0
    have hieq : i0 = Json.str instr := (Option.some.inj hi0').symm
    subst hieq
    subst hupd1
    have hs1 : merge (initState instr) [("title_en", t), ("seo_en", t)] =
        ⟨some (.str instr), some t, some t, none, none, none, none, none, none, none⟩ := rfl
    rw [hs1] at h
    rcases e2 : summary_generator llm
        ⟨some (.str instr), some t, some t, none, none, none, none, none, none, none⟩ calls1
      with ⟨res2, calls2⟩
    rw [e2] at h
    cases res2 with
    | error e => simp at h
    | ok upd2 =>
      simp only [] at h
      obtain ⟨te2, sm, hte2, hupd2, hc2⟩ := summary_generator_ok e2
      have hte2' : some t = some te2 := hte2
      have hteq2 : t = te2 := Option.some.inj hte2'
      subst hteq2
      subst hupd2
      have hs2 : merge ⟨some (.str instr), some t, some t, none, none, none, none, none, none, none⟩
          [("summary_en", sm)] =
          ⟨some (.str instr), some t, some t, some sm, none, none, none, none, none, none⟩ := rfl
      rw [hs2] at h
      rcases e3 : body_generator llm
          ⟨some (.str instr), some t, some t, some sm, none, none, none, none, none, none⟩ calls2
        with ⟨res3, calls3⟩
      rw [e3] at h
      cases res3 with
      | error e => simp at h
      | ok upd3 =>
        simp only [] at h
        obtain ⟨te3, se3, b, hte3, hse3, hupd3, hc3⟩ := body_generator_ok e3
        have hteq3 : t = te3 := Option.some.inj (hte3 : some t = some te3)
        subst hteq3
        have hseq3 : sm = se3 := Option.some.inj (hse3 : some sm = some se3)
        subst hseq3
        subst hupd3
        have hs3 : merge ⟨some (.str instr), some t, some t, some sm, none, none, none, none, none, none⟩
            [("body_en", b)] =
            ⟨some (.str instr), some t, some t, some sm, some b, none, none, none, none, none⟩ := rfl
        rw [hs3] at h
        rcases e4 : translator trO
            ⟨some (.str instr), some t, some t, some sm, some b, none, none, none, none, none⟩ calls3
          with ⟨res4, calls4⟩
        rw [e4] at h
        cases res4 with
        | error e => simp at h
        | ok upd4 =>
          simp only [] at h
          obtain ⟨te4, se4, be4, tid, smid, bid, hte4, hse4, hbe4, ht4, ht5, ht6, hupd4, hc4⟩ :=
            translator_ok e4
          have hteq4 : t = te4 := Option.some.inj (hte4 : some t = some te4)
          subst hteq4
          have hseq4 : sm = se4 := Option.some.inj (hse4 : some sm = some se4)
          subst hseq4
          have hbeq4 : b = be4 := Option.some.inj (hbe4 : some b = some be4)
          subst hbeq4
          subst hupd4
          have hs4 : merge
              ⟨some (.str instr), some t, some t, some sm, some b, none, none, none, none, none⟩
              [("title_id", .str tid), ("seo_id", .str tid),
               ("summary_id", .str smid), ("body_id", .str bid)] =
              ⟨some (.str instr), some t, some t, some sm, some b, some (.str tid),
               some (.str tid), some (.str smid), some (.str bid), none⟩ := rfl
          rw [hs4] at h
          rcases e5 : tags_generator llm
              ⟨some (.str instr), some t, some t, some sm, some b, some (.str tid),
               some (.str tid), some (.str smid), some (.str bid), none⟩ calls4
            with ⟨res5, calls5⟩
          rw [e5] at h
          cases res5 with
          | error e => simp at h
          | ok upd5 =>
            simp only [] at h
            obtain ⟨ti5, si5, tg, hti5, hsi5, hupd5, hc5⟩ := tags_generator_ok e5
            have htieq : Json.str tid = ti5 :=
              Option.some.inj (hti5 : some (Json.str tid) = some ti5)
            subst htieq
            have hsieq : Json.str smid = si5 :=
              Option.some.inj (hsi5 : some (Json.str smid) = some si5)
            subst hsieq
            subst hupd5
            have hs5 : merge
                ⟨some (.str instr), some t, some t, some sm, some b, some (.str tid),
                 some (.str tid), some (.str smid), some (.str bid), none⟩
                [("tags", tg)] =
                ⟨some (.str instr), some t, some t, some sm, some b, some (.str tid),
                 some (.str tid), some (.str smid), some (.str bid), some tg⟩ := rfl
            rw [hs5] at h
            simp only [Prod.mk.injEq, Except.ok.injEq] at h
            obtain ⟨hst, hcalls, hinvs⟩ := h
            refine ⟨t, sm, b, tid, smid, bid, tg, ht4, ht5, ht6, hst.symm, ?_, ?_⟩
            · rw [← hcalls, hc5, hc4, hc3, hc2, hc1]
              simp
            · rw [← hinvs]
              rfl

/-- In every run (also a failing one), the recorded node invocations are one
of five explicit prefixes of the full chain, with the state each node
received given explicitly. -/
theorem run_invs_cases (llm : LLMOracle) (trO : TransOracle) (instr : String) :
    ((generate_article llm trO instr).2.2 =
      [("title_generator", ⟨some (.str instr), none, none, none, none, none, none, none, none, none⟩)])
  ∨ (∃ t, (generate_article llm trO instr).2.2 =
      [("title_generator", ⟨some (.str instr), none, none, none, none, none, none, none, none, none⟩),
       ("summary_generator", ⟨some (.str instr), some t, some t, none, none, none, none, none, none, none⟩)])
  ∨ (∃ t sm, (generate_article llm trO instr).2.2 =
      [("title_generator", ⟨some (.str instr), none, none, none, none, none, none, none, none, none⟩),
       ("summary_generator", ⟨some (.str instr), some t, some t, none, none, none, none, none, none, none⟩),
       ("body_generator", ⟨some (.str instr), some t, some t, some sm, none, none, none, none, none, none⟩)])
  ∨ (∃ t sm b, (generate_article llm trO instr).2.2 =
      [("title_generator", ⟨some (.str instr), none, none, none, none, none, none, none, none, none⟩),
       ("summary_generator", ⟨some (.str instr), some t, some t, none, none, none, none, none, none, none⟩),
       ("body_generator", ⟨some (.str instr), some t, some t, some sm, none, none, none, none, none, none⟩),
       ("translator", ⟨some (.str instr), some t, some t, some sm, some b, none, none, none, none, none⟩)])
  ∨ (∃ t sm b tid smid bid, (generate_article llm trO instr).2.2 =
      [("title_generator", ⟨some (.str instr), none, none, none, none, none, none, none, none, none⟩),
       ("summary_generator", ⟨some (.str instr), some t, some t, none, none, none, none, none, none, none⟩),
       ("body_generator", ⟨some (.str instr), some t, some t, some sm, none, none, none, none, none, none⟩),
       ("translator", ⟨some (.str instr), some t, some t, some sm, some b, none, none, none, none, none⟩),
       ("tags_generator", ⟨some (.str instr), some t, some t, some sm, some b, some (.str tid),
          some (.str tid), some (.str smid), some (.str bid), none⟩)]) := by
  rw [generate_article_eq_seq]
  simp only [runSeqTrace]
  rcases e1 : title_generator llm (initState instr) [] with ⟨res1, calls1⟩
  cases res1 with
  | error e => left; rfl
  | ok upd1 =>
    simp only []
    obtain ⟨i0, t, hi0, hupd1, hc1⟩ := title_generator_ok e1
    have hieq : i0 = Json.str instr :=
      (Option.some.inj (hi0 : some (Json.str instr) = some i0)).symm
    subst hieq
    subst hupd1
    have hs1 : merge (initState instr) [("title_en", t), ("seo_en", t)] =
        ⟨some (.str instr), some t, some t, none, none, none, none, none, none, none⟩ := rfl
    rw [hs1]
    rcases e2 : summary_generator llm
        ⟨some (.str instr), some t, some t, none, none, none, none, none, none, none⟩ calls1
      with ⟨res2, calls2⟩
    cases res2 with
    | error e => right; left; exact ⟨t, rfl⟩
    | ok upd2 =>
      simp only []
      obtain ⟨te2, sm, hte2, hupd2, hc2⟩ := summary_generator_ok e2
      have hteq2 : t = te2 := Option.some.inj (hte2 : some t = some te2)
      subst hteq2
      subst hupd2
      have hs2 : merge ⟨some (.str instr), some t, some t, none, none, none, none, none, none, none⟩
          [("summary_en", sm)] =
          ⟨some (.str instr), some t, some t, some sm, none, none, none, none, none, none⟩ := rfl
      rw [hs2]
      rcases e3 : body_generator llm
          ⟨some (.str instr), some t, some t, some sm, none, none, none, none, none, none⟩ calls2
        with ⟨res3, calls3⟩
      cases res3 with
      | error e => right; right; left; exact ⟨t, sm, rfl⟩
      | ok upd3 =>
        simp only []
        obtain ⟨te3, se3, b, hte3, hse3, hupd3, hc3⟩ := body_generator_ok e3
        have hteq3 : t = te3 := Option.some.inj (hte3 : some t = some te3)
        subst hteq3
        have hseq3 : sm = se3 := Option.some.inj (hse3 : some sm = some se3)
        subst hseq3
        subst hupd3
        have hs3 : merge ⟨some (.str instr), some t, some t, some sm, none, none, none, none, none, none⟩
            [("body_en", b)] =
            ⟨some (.str instr), some t, some t, some sm, some b, none, none, none, none, none⟩ := rfl
        rw [hs3]
        rcases e4 : translator trO
            ⟨some (.str instr), some t, some t, some sm, some b, none, none, none, none, none⟩ calls3
          with ⟨res4, calls4⟩
        cases res4 with
        | error e => right; right; right; left; exact ⟨t, sm, b, rfl⟩
        | ok upd4 =>
          simp only []
          obtain ⟨te4, se4, be4, tid, smid, bid, hte4, hse4, hbe4, ht4, ht5, ht6, hupd4, hc4⟩ :=
            translator_ok e4
          have hteq4 : t = te4 := Option.some.inj (hte4 : some t = some te4)
          subst hteq4
          have hseq4 : sm = se4 := Option.some.inj (hse4 : some sm = some se4)
          subst hseq4
          have hbeq4 : b = be4 := Option.some.inj (hbe4 : some b = some be4)
          subst hbeq4
          subst hupd4
          have hs4 : merge
              ⟨some (.str instr), some t, some t, some sm, some b, none, none, none, none, none⟩
              [("title_id", .str tid), ("seo_id", .str tid),
               ("summary_id", .str smid), ("body_id", .str bid)] =
              ⟨some (.str instr), some t, some t, some sm, some b, some (.str tid),
               some (.str tid), some (.str smid), some (.str bid), none⟩ := rfl
          rw [hs4]
          rcases e5 : tags_generator llm
              ⟨some (.str instr), some t, some t, some sm, some b, some (.str tid),
               some (.str tid), some (.str smid), some (.str bid), none⟩ calls4
            with ⟨res5, calls5⟩
          cases res5 with
          | error e => right; right; right; right; exact ⟨t, sm, b, tid, smid, bid, rfl⟩
          | ok upd5 => right; right; right; right; exact ⟨t, sm, b, tid, smid, bid, rfl⟩

/-- `s2` preserves every field already set in `s1` (with the same value). -/
def Extends (s2 s1 : GraphState) : Prop :=
  (∀ v, s1.instruction = some v → s2.instruction = some v) ∧
  (∀ v, s1.title_en = some v → s2.title_en = some v) ∧
  (∀ v, s1.seo_en = some v → s2.seo_en = some v) ∧
  (∀ v, s1.summary_en = some v → s2.summary_en = some v) ∧
  (∀ v, s1.body_en = some v → s2.body_en = some v) ∧
  (∀ v, s1.title_id = some v → s2.title_id = some v) ∧
  (∀ v, s1.seo_id = some v → s2.seo_id = some v) ∧
  (∀ v, s1.summary_id = some v → s2.summary_id = some v) ∧
  (∀ v, s1.body_id = some v → s2.body_id = some v) ∧
  (∀ v, s1.tags = some v → s2.tags = some v)

/-- A fixed LLM answer that satisfies every stage (used as a concrete witness
oracle). -/
def llmDemo : LLMOracle := fun _ =>
  .ok (.obj [("title_en", .str "T"), ("summary_en", .str "S"), ("body_en", .str "B"),
             ("tags", .arr [.str "t1", .str "t2"])])

/-- A translator oracle that always answers "X". -/
def trDemo : TransOracle := fun _ _ _ => .ok "X"

/-- An LLM oracle that always fails (e.g. malformed JSON). -/
def llmFail : LLMOracle := fun _ => .error .llmFailure

/-- The final state of the demo run on instruction "hello". -/
def demoSt : GraphState :=
  ⟨some (.str "hello"), some (.str "T"), some (.str "T"), some (.str "S"), some (.str "B"),
   some (.str "X"), some (.str "X"), some (.str "X"), some (.str "X"),
   some (.arr [.str "t1", .str "t2"])⟩

/-- C1: For every non-empty, non-whitespace instruction string, the Request
Handler invokes the pipeline exactly once and, when the pipeline succeeds,
returns a record containing all ten fields (instruction, title_en, seo_en,
summary_en, body_en, title_id, seo_id, summary_id, body_id, tags). -/
theorem C1_handler_runs_once_returns_ten_fields
    (llm : LLMOracle) (trO : TransOracle) (s : String)
    (h : pyStrWhitespaceOnly s = false) :
    (classify_texts llm trO (.str s)).pipeline_runs = 1 ∧
    ∀ st, (classify_texts llm trO (.str s)).response = .ok st →
      st.instruction.isSome ∧ st.title_en.isSome ∧ st.seo_en.isSome ∧
      st.summary_en.isSome ∧ st.body_en.isSome ∧ st.title_id.isSome ∧
      st.seo_id.isSome ∧ st.summary_id.isSome ∧ st.body_id.isSome ∧ st.tags.isSome := by
  have hne : (s == "") = false := by
    cases hb : s == ""
    · rfl
    · exfalso
      have hs : s = "" := eq_of_beq hb
      rw [hs] at h
      simp [pyStrWhitespaceOnly] at h
  have hv : validate_string (.str s) = .ok () := by
    unfold validate_string
    simp [pyFalsy, Input.isStr, stripEmpty, hne, h]
  unfold classify_texts
  rw [hv]
  simp only []
  rcases er : generate_article llm trO s with ⟨res, cs, invs⟩
  cases res with
  | error e =>
    refine ⟨rfl, ?_⟩
    intro st hst
    exact absurd hst (by simp)
  | ok article =>
    refine ⟨rfl, ?_⟩
    intro st hst
    have hart : article = st := by
      simpa using hst
    subst hart
    obtain ⟨t, sm, b, tid, smid, bid, tg, _, _, _, hstEq, _, _⟩ := run_ok_shape er
    rw [hstEq]
    exact ⟨rfl, rfl, rfl, rfl, rfl, rfl, rfl, rfl, rfl, rfl⟩

theorem C1_witness :
    (classify_texts llmDemo trDemo (.str "hello")).pipeline_runs = 1 ∧
    ∀ st, (classify_texts llmDemo trDemo (.str "hello")).response = .ok st →
      st.instruction.isSome ∧ st.title_en.isSome ∧ st.seo_en.isSome ∧
      st.summary_en.isSome ∧ st.body_en.isSome ∧ st.title_id.isSome ∧
      st.seo_id.isSome ∧ st.summary_id.isSome ∧ st.body_id.isSome ∧ st.tags.isSome :=
  C1_handler_runs_once_returns_ten_fields llmDemo trDemo "hello" (by decide)

/-- C2: Empty, whitespace-only, and non-string inputs fail validation with a
client error (status 400, hence a validation failure rather than the generic
internal error), with no external call made and the pipeline never invoked;
the whitespace-only case fails identically in kind (same status 400) to the
empty-string case. -/
theorem C2_validation_rejects_without_pipeline (llm : LLMOracle) (trO : TransOracle) :
    (∀ s : String, pyStrWhitespaceOnly s = true →
      ∃ e, classify_texts llm trO (.str s) = ⟨.error e, [], 0⟩ ∧ e.status_code = 400) ∧
    (∀ b : Bool,
      ∃ e, classify_texts llm trO (.nonString b) = ⟨.error e, [], 0⟩ ∧ e.status_code = 400) := by
  constructor
  · intro s hs
    cases hb : s == ""
    · refine ⟨⟨400, "Input cannot be empty or just whitespace"⟩, ?_, rfl⟩
      unfold classify_texts validate_string
      simp [pyFalsy, Input.isStr, stripEmpty, hb, hs]
    · have hs0 : s = "" := eq_of_beq hb
      subst hs0
      exact ⟨⟨400, "Input must be a string"⟩, rfl, rfl⟩
  · intro b
    cases b
    · exact ⟨⟨400, "Input must be a string"⟩, rfl, rfl⟩
    · exact ⟨⟨400, "Input must be a string"⟩, rfl, rfl⟩

theorem C2_witness :
    ∃ e, classify_texts llmDemo trDemo (.str "   ") = ⟨.error e, [], 0⟩ ∧ e.status_code = 400 :=
  (C2_validation_rejects_without_pipeline llmDemo trDemo).1 "   " (by decide)

/-- C3: Whenever validation succeeds and the pipeline then fails for any
reason, the Request Handler returns the generic internal error (status 500,
fixed detail, no structured information and no partial record) and the
pipeline is still invoked exactly once (no retry). -/
theorem C3_pipeline_failure_becomes_internal_error
    (llm : LLMOracle) (trO : TransOracle) (s : String) (e : PipeError)
    (hv : validate_string (.str s) = .ok ())
    (hf : (generate_article llm trO s).1 = .error e) :
    (classify_texts llm trO (.str s)).response = .error ⟨500, "Internal server error"⟩ ∧
    (classify_texts llm trO (.str s)).pipeline_runs = 1 := by
  unfold classify_texts
  rw [hv]
  simp only []
  rcases er : generate_article llm trO s with ⟨res, cs, invs⟩
  rw [er] at hf
  simp only [] at hf
  subst hf
  exact ⟨rfl, rfl⟩

theorem C3_witness :
    (classify_texts llmFail trDemo (.str "hello")).response =
      .error ⟨500, "Internal server error"⟩ ∧
    (classify_texts llmFail trDemo (.str "hello")).pipeline_runs = 1 :=
  C3_pipeline_failure_becomes_internal_error llmFail trDemo "hello" .llmFailure
    (by rfl) (by rfl)

/-- C4: In every completed pipeline run the final state satisfies
seo_en = title_en and seo_id = title_id. -/
theorem C4_seo_equals_title (llm : LLMOracle) (trO : TransOracle) (instr : String) :
    ∀ st, (generate_article llm trO instr).1 = .ok st →
      st.seo_en = st.title_en ∧ st.seo_id = st.title_id := by
  intro st hst
  rcases er : generate_article llm trO instr with ⟨res, cs, invs⟩
  rw [er] at hst
  simp only [] at hst
  subst hst
  obtain ⟨t, sm, b, tid, smid, bid, tg, _, _, _, hstEq, _, _⟩ := run_ok_shape er
  rw [hstEq]
  exact ⟨rfl, rfl⟩

theorem C4_witness : demoSt.seo_en = demoSt.title_en ∧ demoSt.seo_id = demoSt.title_id :=
  C4_seo_equals_title llmDemo trDemo "hello" demoSt (by rfl)

/-- C5: in every pipeline execution, summary_generator is never invoked
before title_en is set; body_generator never before title_en and summary_en;
translator never before body_en; tags_generator never before title_id and
summary_id. -/
theorem C5_stage_ordering (llm : LLMOracle) (trO : TransOracle) (instr : String) :
    ∀ p ∈ (generate_article llm trO instr).2.2,
      (p.1 = "summary_generator" → p.2.title_en.isSome) ∧
      (p.1 = "body_generator" → p.2.title_en.isSome ∧ p.2.summary_en.isSome) ∧
      (p.1 = "translator" → p.2.body_en.isSome) ∧
      (p.1 = "tags_generator" → p.2.title_id.isSome ∧ p.2.summary_id.isSome) := by
  intro p hp
  rcases run_invs_cases llm trO instr with
      h | ⟨t, h⟩ | ⟨t, sm, h⟩ | ⟨t, sm, b, h⟩ | ⟨t, sm, b, tid, smid, bid, h⟩ <;>
    rw [h] at hp <;> simp only [List.mem_cons, List.mem_singleton, List.not_mem_nil, or_false] at hp
  · subst hp
    refine ⟨?_, ?_, ?_, ?_⟩ <;> intro hq <;> simp at hq
  · rcases hp with rfl | rfl <;> refine ⟨?_, ?_, ?_, ?_⟩ <;> intro hq <;>
      first
        | exact rfl
        | exact ⟨rfl, rfl⟩
        | simp at hq
  · rcases hp with rfl | rfl | rfl <;> refine ⟨?_, ?_, ?_, ?_⟩ <;> intro hq <;>
      first
        | exact rfl
        | exact ⟨rfl, rfl⟩
        | simp at hq
  · rcases hp with rfl | rfl | rfl | rfl <;> refine ⟨?_, ?_, ?_, ?_⟩ <;> intro hq <;>
      first
        | exact rfl
        | exact ⟨rfl, rfl⟩
        | simp at hq
  · rcases hp with rfl | rfl | rfl | rfl | rfl <;> refine ⟨?_, ?_, ?_, ?_⟩ <;> intro hq <;>
      first
        | exact rfl
        | exact ⟨rfl, rfl⟩
        | simp at hq

theorem C5_witness :
    ("tags_generator" = "summary_generator" →
      (demoSt.title_en.isSome : Prop)) ∧
    ("tags_generator" = "body_generator" →
      demoSt.title_en.isSome ∧ demoSt.summary_en.isSome) ∧
    ("tags_generator" = "translator" → (demoSt.body_en.isSome : Prop)) ∧
    ("tags_generator" = "tags_generator" →
      demoSt.title_id.isSome ∧ demoSt.summary_id.isSome) := by
  have hmem : ("tags_generator",
      (⟨some (.str "hello"), some (.str "T"), some (.str "T"), some (.str "S"), some (.str "B"),
        some (.str "X"), some (.str "X"), some (.str "X"), some (.str "X"),
        none⟩ : GraphState)) ∈ (generate_article llmDemo trDemo "hello").2.2 := by
    show _ ∈ [("title_generator", _), ("summary_generator", _), ("body_generator", _),
              ("translator", _), ("tags_generator", _)]
    exact List.Mem.tail _ (List.Mem.tail _ (List.Mem.tail _ (List.Mem.tail _ (List.Mem.head _))))
  have h := C5_stage_ordering llmDemo trDemo "hello" _ hmem
  exact ⟨fun hq => h.1 hq, fun hq => h.2.1 hq, fun hq => h.2.2.1 hq, fun hq => h.2.2.2 hq⟩

/-- C6: each stage returns exactly the keys of the fields it computes (title
stage: title_en, seo_en; summary stage: summary_en; body stage: body_en;
translator: title_id, seo_id, summary_id, body_id; tags stage: tags); hence
along the run the state only grows: every invocation state extends the
previous one, and on success the final state extends every invocation state
(so no field, including instruction, is ever deleted or mutated after being
set). -/
theorem C6_record_only_grows (llm : LLMOracle) (trO : TransOracle) (instr : String) :
    (∀ s calls upd calls', title_generator llm s calls = (.ok upd, calls') →
      upd.map Prod.fst = ["title_en", "seo_en"]) ∧
    (∀ s calls upd calls', summary_generator llm s calls = (.ok upd, calls') →
      upd.map Prod.fst = ["summary_en"]) ∧
    (∀ s calls upd calls', body_generator llm s calls = (.ok upd, calls') →
      upd.map Prod.fst = ["body_en"]) ∧
    (∀ s calls upd calls', translator trO s calls = (.ok upd, calls') →
      upd.map Prod.fst = ["title_id", "seo_id", "summary_id", "body_id"]) ∧
    (∀ s calls upd calls', tags_generator llm s calls = (.ok upd, calls') →
      upd.map Prod.fst = ["tags"]) ∧
    List.Chain' (fun a b => Extends b.2 a.2) (generate_article llm trO instr).2.2 ∧
    (∀ st, (generate_article llm trO instr).1 = .ok st →
      ∀ p ∈ (generate_article llm trO instr).2.2, Extends st p.2) := by
  refine ⟨?_, ?_, ?_, ?_, ?_, ?_, ?_⟩
  · intro s calls upd calls' h
    obtain ⟨_, t, _, hupd, _⟩ := title_generator_ok h
    subst hupd; rfl
  · intro s calls upd calls' h
    obtain ⟨_, v, _, hupd, _⟩ := summary_generator_ok h
    subst hupd; rfl
  · intro s calls upd calls' h
    obtain ⟨_, _, v, _, _, hupd, _⟩ := body_generator_ok h
    subst hupd; rfl
  · intro s calls upd calls' h
    obtain ⟨_, _, _, _, _, _, _, _, _, _, _, _, hupd, _⟩ := translator_ok h
    subst hupd; rfl
  · intro s calls upd calls' h
    obtain ⟨_, _, v, _, _, hupd, _⟩ := tags_generator_ok h
    subst hupd; rfl
  · rcases run_invs_cases llm trO instr with
        h | ⟨t, h⟩ | ⟨t, sm, h⟩ | ⟨t, sm, b, h⟩ | ⟨t, sm, b, tid, smid, bid, h⟩ <;> rw [h]
    · exact List.chain'_singleton _
    · refine List.chain'_cons.mpr ⟨?_, List.chain'_singleton _⟩
      refine ⟨?_, ?_, ?_, ?_, ?_, ?_, ?_, ?_, ?_, ?_⟩ <;> intro v hv <;>
        first | exact hv | simp at hv
    · refine List.chain'_cons.mpr ⟨?_, List.chain'_cons.mpr ⟨?_, List.chain'_singleton _⟩⟩ <;>
        (refine ⟨?_, ?_, ?_, ?_, ?_, ?_, ?_, ?_, ?_, ?_⟩ <;> intro v hv <;>
          first | exact hv | simp at hv)
    · refine List.chain'_cons.mpr ⟨?_, List.chain'_cons.mpr ⟨?_,
        List.chain'_cons.mpr ⟨?_, List.chain'_singleton _⟩⟩⟩ <;>
        (refine ⟨?_, ?_, ?_, ?_, ?_, ?_, ?_, ?_, ?_, ?_⟩ <;> intro v hv <;>
          first | exact hv | simp at hv)
    · refine List.chain'_cons.mpr ⟨?_, List.chain'_cons.mpr ⟨?_, List.chain'_cons.mpr ⟨?_,
        List.chain'_cons.mpr ⟨?_, List.chain'_singleton _⟩⟩⟩⟩ <;>
        (refine ⟨?_, ?_, ?_, ?_, ?_, ?_, ?_, ?_, ?_, ?_⟩ <;> intro v hv <;>
          first | exact hv | simp at hv)
  · intro st hst p hp
    rcases er : generate_article llm trO instr with ⟨res, cs, invs⟩
    rw [er] at hst hp
    simp only [] at hst hp
    subst hst
    obtain ⟨t, sm, b, tid, smid, bid, tg, _, _, _, hstEq, _, hinvsEq⟩ := run_ok_shape er
    subst hstEq
    rw [hinvsEq] at hp
    simp only [List.mem_cons, List.not_mem_nil, or_false] at hp
    rcases hp with rfl | rfl | rfl | rfl | rfl <;>
      refine ⟨?_, ?_, ?_, ?_, ?_, ?_, ?_, ?_, ?_, ?_⟩ <;> intro v hv <;>
        first | exact hv | simp at hv

theorem C6_witness :
    ([("title_en", Json.str "T"), ("seo_en", Json.str "T")] : Upd).map Prod.fst =
      ["title_en", "seo_en"] :=
  (C6_record_only_grows llmDemo trDemo "hello").1
    ⟨some (.str "hello"), none, none, none, none, none, none, none, none, none⟩ []
    [("title_en", .str "T"), ("seo_en", .str "T")]
    [.llm ⟨"title_generator", [("instruction", .str "hello")]⟩] (by rfl)

/-- Is this external call a translation call? -/
def ExtCall.isTranslate : ExtCall → Bool
  | .translate _ _ _ => true
  | .llm _ => false

/-- C7: the translator stage makes exactly three translation calls, each with
source locale "en" and target locale "id", on title_en, summary_en and
body_en respectively, and sets seo_id to a copy of title_id without a fourth
call; consequently a completed run's trace contains exactly those three
translation calls. -/
theorem C7_translator_three_calls (llm : LLMOracle) (trO : TransOracle) (instr : String) :
    (∀ s calls upd calls', translator trO s calls = (.ok upd, calls') →
      ∃ t sm b tid smid bid,
        s.title_en = some t ∧ s.summary_en = some sm ∧ s.body_en = some b ∧
        trO "en" "id" t = .ok tid ∧ trO "en" "id" sm = .ok smid ∧ trO "en" "id" b = .ok bid ∧
        upd = [("title_id", .str tid), ("seo_id", .str tid),
               ("summary_id", .str smid), ("body_id", .str bid)] ∧
        calls' = calls ++ [.translate "en" "id" t, .translate "en" "id" sm,
                           .translate "en" "id" b]) ∧
    (∀ st, (generate_article llm trO instr).1 = .ok st →
      ∃ t sm b, st.title_en = some t ∧ st.summary_en = some sm ∧ st.body_en = some b ∧
        (generate_article llm trO instr).2.1.filter ExtCall.isTranslate =
          [.translate "en" "id" t, .translate "en" "id" sm, .translate "en" "id" b] ∧
        st.seo_id = st.title_id) := by
  constructor
  · intro s calls upd calls' h
    exact translator_ok h
  · intro st hst
    rcases er : generate_article llm trO instr with ⟨res, cs, invs⟩
    rw [er] at hst
    simp only [] at hst
    subst hst
    obtain ⟨t, sm, b, tid, smid, bid, tg, _, _, _, hstEq, hcallsEq, _⟩ := run_ok_shape er
    subst hstEq
    subst hcallsEq
    exact ⟨t, sm, b, rfl, rfl, rfl, rfl, rfl⟩

theorem C7_witness :
    ∃ t sm b, demoSt.title_en = some t ∧ demoSt.summary_en = some sm ∧
      demoSt.body_en = some b ∧
      (generate_article llmDemo trDemo "hello").2.1.filter ExtCall.isTranslate =
        [.translate "en" "id" t, .translate "en" "id" sm, .translate "en" "id" b] ∧
      demoSt.seo_id = demoSt.title_id :=
  (C7_translator_three_calls llmDemo trDemo "hello").2 demoSt (by rfl)

/-- C8: the compiled five-node linear graph execution is equal, for every
oracle pair and every instruction, to the straight sequential composition of
the five stage functions in order title_generator, summary_generator,
body_generator, translator, tags_generator, merging each stage's returned
fields into the running state between stages. -/
theorem C8_graph_equals_sequential (llm : LLMOracle) (trO : TransOracle) (instruction : String) :
    generate_article llm trO instruction = runSeqTrace llm trO instruction := rfl

/-- C9: the empty string fails the falsy check first and is reported with
the (misleading) message "Input must be a string", while a non-empty
whitespace-only string reaches the strip check and is reported with the
distinct message "Input cannot be empty or just whitespace"; both are 400
client errors. -/
theorem C9_distinct_validation_messages :
    validate_string (.str "") = .error ⟨400, "Input must be a string"⟩ ∧
    (∀ s : String, (s == "") = false → pyStrWhitespaceOnly s = true →
      validate_string (.str s) = .error ⟨400, "Input cannot be empty or just whitespace"⟩) ∧
    "Input must be a string" ≠ "Input cannot be empty or just whitespace" := by
  refine ⟨rfl, ?_, by decide⟩
  intro s h1 h2
  unfold validate_string
  simp [pyFalsy, Input.isStr, stripEmpty, h1, h2]

theorem C9_witness :
    validate_string (.str "   ") = .error ⟨400, "Input cannot be empty or just whitespace"⟩ :=
  C9_distinct_validation_messages.2.1 "   " (by decide) (by decide)

/-- C10: whenever the parsed LLM response of the tags stage has the key
'tags', tags_generator returns its value completely unchanged — the value is
an arbitrary JSON value, with no check that it is a (non-empty) list of
(short) strings. -/
theorem C10_tags_returned_unvalidated (llm : LLMOracle) (s : GraphState)
    (calls : List ExtCall) (tid sid resp v : Json)
    (h1 : s.title_id = some tid) (h2 : s.summary_id = some sid)
    (h3 : llm ⟨"tags_generator", [("title_id", tid), ("summary_id", sid)]⟩ = .ok resp)
    (h4 : resp.getKey "tags" = some v) :
    tags_generator llm s calls =
      (.ok [("tags", v)],
       calls ++ [.llm ⟨"tags_generator", [("title_id", tid), ("summary_id", sid)]⟩]) := by
  unfold tags_generator
  rw [h1]
  simp only []
  rw [h2]
  simp only []
  rw [h3]
  simp only []
  rw [h4]

/-- An LLM oracle whose tags value is not even a list. -/
def llmTagsNum : LLMOracle := fun _ => .ok (.obj [("tags", .num 7)])

theorem C10_witness :
    tags_generator llmTagsNum
        ⟨none, none, none, none, none, some (.str "TI"), none, some (.str "SI"), none, none⟩ [] =
      (.ok [("tags", .num 7)],
       [] ++ [.llm ⟨"tags_generator", [("title_id", .str "TI"), ("summary_id", .str "SI")]⟩]) :=
  C10_tags_returned_unvalidated llmTagsNum
    ⟨none, none, none, none, none, some (.str "TI"), none, some (.str "SI"), none, none⟩ []
    (.str "TI") (.str "SI") (.obj [("tags", .num 7)]) (.num 7) rfl rfl rfl rfl
